import Mathlib

/-!
Shallow embedding of the QazPost address-checker matching core
(src/processors/matcher.py, src/parsers/html_parser.py, src/config.py).

Python strings are modelled as Lean `String` / `List Char`, Python floats as
exact rationals `ℚ`, Python `None` as `Option`, and a raised exception as the
`Except.error` branch of an `Except` value.  Each definition mirrors the
control flow of its source function; the source line is noted in the doc
comment.
-/

namespace AddressChecker

/- ### Character and string primitives shared by the matcher and the parser -/

/-- Python's default whitespace class (`str.split`, `str.strip`, regex `\s`)
restricted to the ASCII control characters it contains. -/
def isWsC (c : Char) : Bool :=
  c = ' ' || c = '\t' || c = '\n' || c = '\r' || c.toNat = 11 || c.toNat = 12

/-- Models Python `str.lower` on the alphabets this repository uses:
ASCII letters and Russian Cyrillic (`А`..`Я` and `Ё`). -/
def lowerC (c : Char) : Char :=
  if 'A' ≤ c && c ≤ 'Z' then Char.ofNat (c.toNat + 32)
  else if 0x410 ≤ c.toNat && c.toNat ≤ 0x42F then Char.ofNat (c.toNat + 32)
  else if c.toNat = 0x401 then Char.ofNat 0x451
  else c

/-- Exact "the first list starts the second" test. -/
def startsEq : List Char → List Char → Bool
  | [], _ => true
  | _ :: _, [] => false
  | a :: as, b :: bs => a = b && startsEq as bs

/-- Case-insensitive "the first list starts the second" test
(Python regexes in this repository run with `re.IGNORECASE`). -/
def ciStarts : List Char → List Char → Bool
  | [], _ => true
  | _ :: _, [] => false
  | a :: as, b :: bs => lowerC a = lowerC b && ciStarts as bs

/-- Case-insensitive "the first list ends the second" test. -/
def ciEnds (w s : List Char) : Bool :=
  w.length ≤ s.length && ciStarts w (s.drop (s.length - w.length))

/-- Drop trailing whitespace. -/
def dropTrailWs (s : List Char) : List Char :=
  (s.reverse.dropWhile isWsC).reverse

/-- Python `str.strip()`: drop whitespace at both ends. -/
def pyStripL (s : List Char) : List Char :=
  dropTrailWs (s.dropWhile isWsC)

/-- Python `str.split()` (split on whitespace runs, dropping empty parts). -/
def splitWs : List Char → List (List Char) :=
  go []
where
  go (acc : List Char) : List Char → List (List Char)
    | [] => if acc.isEmpty then [] else [acc.reverse]
    | c :: rest =>
      if isWsC c then
        if acc.isEmpty then go [] rest else acc.reverse :: go [] rest
      else go (c :: acc) rest

/-- Python `' '.join(words)`. -/
def joinWords : List (List Char) → List Char
  | [] => []
  | [w] => w
  | w :: ws => w ++ ' ' :: joinWords ws

/-- The scan of Python `text.replace(old, new)` with explicit fuel standing
in for the decreasing length of the remaining text (each replacement step
consumes at least one character when `old` is non-empty, so fuel
`s.length` is always enough). -/
def replaceAllF (old new : List Char) : Nat → List Char → List Char
  | _, [] => []
  | 0, s => s
  | fuel + 1, c :: rest =>
    if startsEq old (c :: rest) && !old.isEmpty then
      new ++ replaceAllF old new fuel ((c :: rest).drop old.length)
    else
      c :: replaceAllF old new fuel rest

/-- Python `text.replace(old, new)`: left-to-right non-overlapping
replacement of every occurrence of a substring. -/
def replaceAll (old new s : List Char) : List Char :=
  replaceAllF old new s.length s

/-- Python substring membership `needle in hay`. -/
def containsSub (nee : List Char) : List Char → Bool
  | [] => startsEq nee []
  | c :: rest => startsEq nee (c :: rest) || containsSub nee rest

/- ### Text normalisation (`AddressMatcher._normalize_text`, matcher.py:262-297) -/

/-- The marker vocabulary of the two `re.sub` calls in `_normalize_text`
(matcher.py:282-283), in the alternation order of the source pattern. -/
def markers : List (List Char) :=
  ["г.".data, "город".data, "с.".data, "село".data, "пос.".data, "посёлок".data,
   "ул.".data, "улица".data, "пр.".data, "проспект".data, "мкр.".data, "микрорайон".data]

/-- `re.sub(r'^(alt1|alt2|...)\s*', '', s)`: if some alternative matches at the
start of the string (tried in pattern order, as Python regex alternation does),
remove it together with the following whitespace run. -/
def stripLeadVocab (vocab : List (List Char)) (s : List Char) : List Char :=
  match vocab.find? (fun v => ciStarts v s) with
  | some v => (s.drop v.length).dropWhile isWsC
  | none => s

/-- `re.sub(r'\s*(alt1|alt2|...)$', '', s)`: the leftmost match removes the
longest alternative that is a suffix of the string, together with the
whitespace run immediately before it (the alternatives contain no whitespace,
so the leftmost match start corresponds to the longest matching suffix). -/
def stripTailVocab (vocab : List (List Char)) (s : List Char) : List Char :=
  match vocab.foldl
      (fun best v =>
        if ciEnds v s then
          match best with
          | none => some v
          | some b => if b.length < v.length then some v else best
        else best)
      none with
  | some v => dropTrailWs (s.take (s.length - v.length))
  | none => s

/-- The synonym-contraction map of `_normalize_text` (matcher.py:286-292),
in dict insertion order. -/
def synonyms : List (List Char × List Char) :=
  [("проспект".data, "пр".data), ("улица".data, "ул".data),
   ("микрорайон".data, "мкр".data), ("переулок".data, "пер".data),
   ("бульвар".data, "бул".data)]

/-- `AddressMatcher._normalize_text` (matcher.py:262-297) on character lists:
lower-case and strip, collapse whitespace runs, strip one leading and one
trailing marker, replace synonyms (substring-wise), and strip again.  The
source patterns for the marker stripping are not case-insensitive, but they
run on already lower-cased text, so the case-insensitive comparison used here
agrees with them. -/
def normalizeL (t : List Char) : List Char :=
  if t.isEmpty then []
  else
    let t1 := pyStripL (t.map lowerC)
    let t2 := joinWords (splitWs t1)
    let t3 := stripLeadVocab markers t2
    let t4 := stripTailVocab markers t3
    let t5 := synonyms.foldl (fun acc p => replaceAll p.1 p.2 acc) t4
    pyStripL t5

/-- `AddressMatcher._normalize_text` on `String`. -/
def normalize (s : String) : String :=
  ⟨normalizeL s.data⟩

/- ### Similarity scorer
`AddressMatcher._calculate_similarity` (matcher.py:299-317) delegates to
`difflib.SequenceMatcher(None, a, b).ratio()`.  The state of
`find_longest_match` from CPython's difflib is embedded below; the junk sets
are empty (`isjunk = None`, and autojunk only applies when the second string
has at least 200 characters, far beyond the strings compared here), so the
two junk-extension loops of the source can never fire and are omitted. -/

/-- The ascending position list `b2j[c]` of difflib: indices of `c` in `b`. -/
def posList (c : Char) (b : List Char) : List Nat :=
  (List.range b.length).filter (fun j => b.getD j ' ' = c)

/-- Running state of `find_longest_match`: the `j2len` table and the best
match found so far. -/
structure FLM where
  j2len : Nat → Nat
  besti : Nat
  bestj : Nat
  bestsize : Nat

/-- The nested loop of `find_longest_match` (difflib): for each `i`, walk the
positions of `a[i]` in `b`, extending common-suffix lengths recorded in
`j2len` and tracking the first longest match. -/
def flmLoop (a b : List Char) (alo ahi blo bhi : Nat) : FLM :=
  (List.range' alo (ahi - alo)).foldl
    (fun st i =>
      let js := posList (a.getD i ' ') b
      js.foldl
        (fun st2 j =>
          if blo ≤ j && j < bhi then
            let k := (if j = 0 then 0 else st.j2len (j - 1)) + 1
            let nj := fun j' => if j' = j then k else st2.j2len j'
            if st2.bestsize < k then ⟨nj, i + 1 - k, j + 1 - k, k⟩
            else ⟨nj, st2.besti, st2.bestj, st2.bestsize⟩
          else st2)
        ⟨(fun _ => 0), st.besti, st.bestj, st.bestsize⟩)
    ⟨(fun _ => 0), alo, blo, 0⟩

/-- The first (non-junk) extension loop of `find_longest_match`: grow the
match leftwards over equal characters.  It is a no-op for the maximal match
found by `flmLoop`, but is kept for faithfulness; the fuel argument bounds
the iteration count by `besti`. -/
def extLeft (a b : List Char) (alo blo : Nat) :
    Nat → Nat → Nat → Nat → Nat × Nat × Nat
  | 0, bi, bj, bs => (bi, bj, bs)
  | fuel + 1, bi, bj, bs =>
    if alo < bi && blo < bj && a.getD (bi - 1) ' ' = b.getD (bj - 1) ' ' then
      extLeft a b alo blo fuel (bi - 1) (bj - 1) (bs + 1)
    else (bi, bj, bs)

/-- The second (non-junk) extension loop of `find_longest_match`: grow the
match rightwards over equal characters. -/
def extRight (a b : List Char) (ahi bhi : Nat) :
    Nat → Nat → Nat → Nat → Nat × Nat × Nat
  | 0, bi, bj, bs => (bi, bj, bs)
  | fuel + 1, bi, bj, bs =>
    if bi + bs < ahi && bj + bs < bhi && a.getD (bi + bs) ' ' = b.getD (bj + bs) ' ' then
      extRight a b ahi bhi fuel bi bj (bs + 1)
    else (bi, bj, bs)

/-- `SequenceMatcher.find_longest_match` on the slice `a[alo:ahi]`, `b[blo:bhi]`
with empty junk sets. -/
def findLongestMatch (a b : List Char) (alo ahi blo bhi : Nat) : Nat × Nat × Nat :=
  let st := flmLoop a b alo ahi blo bhi
  let l := extLeft a b alo blo st.besti st.besti st.bestj st.bestsize
  extRight a b ahi bhi ahi l.1 l.2.1 l.2.2

/-- The total size of all matching blocks found by
`SequenceMatcher.get_matching_blocks`: recursively take the longest match of
a slice and recurse on the parts left and right of it.  Each recursion level
shrinks the `a`-interval, so fuel `a.length + 1` is enough for the full
recursion; the fuel stands in for the well-founded measure of the source's
worklist. -/
def totalMatched (a b : List Char) : Nat → Nat → Nat → Nat → Nat → Nat
  | 0, _, _, _, _ => 0
  | fuel + 1, alo, ahi, blo, bhi =>
    let r := findLongestMatch a b alo ahi blo bhi
    let i := r.1
    let j := r.2.1
    let k := r.2.2
    if k = 0 then 0
    else
      k + (if alo < i && blo < j then totalMatched a b fuel alo i blo j else 0)
        + (if i + k < ahi && j + k < bhi then totalMatched a b fuel (i + k) ahi (j + k) bhi else 0)

/-- `SequenceMatcher(None, a, b).ratio()`: twice the matched character count
over the total length (and `1.0` on two empty sequences, as in
`difflib._calculate_ratio`). -/
def smRatio (a b : List Char) : ℚ :=
  if a.length + b.length = 0 then 1
  else
    (2 * (totalMatched a b (a.length + b.length + 1) 0 a.length 0 b.length) : ℚ) /
      ((a.length + b.length : Nat) : ℚ)

/-- `AddressMatcher._calculate_similarity` (matcher.py:299-317). -/
def similarity (text1 text2 : String) : ℚ :=
  if text1.isEmpty || text2.isEmpty then 0
  else if text1 = text2 then 1
  else smRatio text1.data text2.data

/- ### House-number comparator
(`AddressMatcher._calculate_house_similarity` / `_extract_house_number`,
matcher.py:185-229) -/

/-- `re.search(r'\d+', s)`: the first run of decimal digits of the string,
or `none` when it has no digit (matcher.py:214-229). -/
def firstDigitRun : List Char → Option (List Char)
  | [] => none
  | c :: rest =>
    if c.isDigit then some ((c :: rest).takeWhile Char.isDigit)
    else firstDigitRun rest

/-- `AddressMatcher._extract_house_number` (matcher.py:214-229). -/
def extract_house_number (s : String) : Option (List Char) :=
  firstDigitRun s.data

/-- `s.strip().lower()` on a string's characters. -/
def stripLower (s : String) : List Char :=
  (pyStripL s.data).map lowerC

/-- `AddressMatcher._calculate_house_similarity` (matcher.py:185-212):
0 when either house string is empty; 1 when the raw strings agree after
trimming and lower-casing; 0.9 when both contain a first digit run and the
runs agree; the generic similarity of the raw strings otherwise. -/
def house_similarity (house1 house2 : String) : ℚ :=
  if house1.isEmpty || house2.isEmpty then 0
  else if stripLower house1 = stripLower house2 then 1
  else if extract_house_number house1 ≠ none ∧ extract_house_number house2 ≠ none ∧
      extract_house_number house1 = extract_house_number house2 then 9 / 10
  else similarity house1 house2

/- ### Configuration (src/config.py:36-46), as exact rationals -/

/-- `config.SETTLEMENT_MATCH_THRESHOLD = 0.9` (config.py:38). -/
def SETTLEMENT_MATCH_THRESHOLD : ℚ := 9 / 10

/-- `config.PARTIAL_MATCH_THRESHOLD = 0.4` (config.py:42). -/
def PARTIAL_MATCH_THRESHOLD : ℚ := 2 / 5

/-- `config.STREET_WEIGHT = 0.7` (config.py:45). -/
def STREET_WEIGHT : ℚ := 7 / 10

/-- `config.HOUSE_WEIGHT = 0.3` (config.py:46). -/
def HOUSE_WEIGHT : ℚ := 3 / 10

/- ### Reference index (`AddressMatcher.__init__` / `_prepare_search_cache` /
`_find_matching_settlements`, matcher.py:14-140) -/

/-- One office record of the scraped database (html_parser.py:105-110). -/
structure Office where
  full_address : String
  settlement : String
  street : String
  house : String
deriving DecidableEq

/-- One entry of the list `_find_matching_settlements` returns
(matcher.py:131-135). -/
structure SettlementCandidate where
  name : String
  offices : List Office
  score : ℚ
deriving DecidableEq

/-- Insert offices under a key into the cache, extending the bucket of an
existing key (`self.settlement_cache[k].extend(offices)`, matcher.py:35-39)
or appending a fresh entry; Python dicts keep insertion order. -/
def cacheInsert : List (String × List Office) → String → List Office →
    List (String × List Office)
  | [], k, offs => [(k, offs)]
  | e :: rest, k, offs =>
    if e.1 = k then (e.1, e.2 ++ offs) :: rest
    else e :: cacheInsert rest k offs

/-- Bucket lookup in the cache (Python dict access, `[]` when absent). -/
def lookupOffices : List (String × List Office) → String → List Office
  | [], _ => []
  | e :: rest, k => if e.1 = k then e.2 else lookupOffices rest k

/-- `AddressMatcher._prepare_search_cache` (matcher.py:27-41): group the
scraped database by the normalized settlement name, concatenating the office
lists of spellings that normalize identically. -/
def prepare_search_cache (offices_data : List (String × List Office)) :
    List (String × List Office) :=
  offices_data.foldl (fun cache p => cacheInsert cache (normalize p.1) p.2) []

/-- The filtering loop of `_find_matching_settlements` (matcher.py:127-135):
every cache bucket whose similarity with the normalized query reaches
`SETTLEMENT_MATCH_THRESHOLD`, in cache order. -/
def candidateList (cache : List (String × List Office)) (settlement_name : String) :
    List SettlementCandidate :=
  cache.filterMap (fun p =>
    if SETTLEMENT_MATCH_THRESHOLD ≤ similarity (normalize settlement_name) p.1 then
      some ⟨p.1, p.2, similarity (normalize settlement_name) p.1⟩
    else none)

/-- Stable descending insertion by score: the inserted element goes in front
of the first element whose score does not exceed it. -/
def insertDesc (c : SettlementCandidate) : List SettlementCandidate → List SettlementCandidate
  | [] => [c]
  | d :: rest => if d.score ≤ c.score then c :: d :: rest else d :: insertDesc c rest

/-- `matches.sort(key=lambda x: x['score'], reverse=True)` (matcher.py:138):
Python's sort is stable, and `reverse=True` keeps ties in list order, which
is what stable descending insertion computes. -/
def sortByScoreDesc : List SettlementCandidate → List SettlementCandidate
  | [] => []
  | c :: rest => insertDesc c (sortByScoreDesc rest)

/-- `AddressMatcher._find_matching_settlements` (matcher.py:114-140). -/
def find_matching_settlements (cache : List (String × List Office))
    (settlement_name : String) : List SettlementCandidate :=
  sortByScoreDesc (candidateList cache settlement_name)

/- ### Address resolver (`AddressMatcher.match_address` /
`_match_street_and_house` / `_determine_status`, matcher.py:43-260) -/

/-- The weighted sum of matcher.py:169-173. -/
def compositeScore (settlement_score street_sim house_sim : ℚ) : ℚ :=
  settlement_score * (3 / 10) + street_sim * STREET_WEIGHT + house_sim * HOUSE_WEIGHT

/-- The score computed by `AddressMatcher._match_street_and_house`
(matcher.py:142-183): street similarity on normalized strings, house
similarity on the raw strings, combined by `compositeScore`. -/
def match_street_and_house (street house : String) (office : Office)
    (settlement_score : ℚ) : ℚ :=
  compositeScore settlement_score
    (similarity (normalize street) (normalize office.street))
    (house_similarity house office.house)

/-- One step of the best-match scan of `match_address` (matcher.py:85-92):
replace the accumulator when the office's composite score strictly exceeds
the best score so far. -/
def bestStep (street house : String) (score : ℚ) (acc : Option (Office × ℚ) × ℚ)
    (o : Office) : Option (Office × ℚ) × ℚ :=
  if acc.2 < match_street_and_house street house o score then
    (some (o, match_street_and_house street house o score),
     match_street_and_house street house o score)
  else acc

/-- The best-match scan of `match_address` (matcher.py:73-92): fold over every
office of every candidate settlement, keeping the first office whose composite
score strictly exceeds the best score so far (initially 0). -/
def bestOffice (street house : String) (cands : List SettlementCandidate) :
    Option (Office × ℚ) :=
  (cands.foldl
    (fun acc c => c.offices.foldl (bestStep street house c.score) acc)
    ((none : Option (Office × ℚ)), (0 : ℚ))).1

/-- The status classification of `AddressMatcher._determine_status`
(matcher.py:246-251). -/
def determine_status (total_score : ℚ) : String :=
  if (9 : ℚ) / 10 ≤ total_score then "Да"
  else if PARTIAL_MATCH_THRESHOLD ≤ total_score then "Проверить"
  else "Нет"

/-- An input row read from the spreadsheet (matcher.py:53-56). -/
structure AddressRow where
  row_num : Nat
  settlement : String
  street : String
  house : String

/-- One result dict of `match_address`. -/
structure MatchOutcome where
  row_num : Nat
  status : String
  details : String
deriving DecidableEq

/-- A single-quote character, used by the f-string details messages. -/
def sq : String :=
  String.singleton (Char.ofNat 39)

/-- Details of the settlement-not-found branch (matcher.py:69). -/
def settlementNotFoundDetails (settlement : String) : String :=
  "Поселение " ++ sq ++ settlement ++ sq ++ " не найдено в базе QazPost"

/-- Details of the street-not-found branch (matcher.py:103). -/
def streetNotFoundDetails (street settlement : String) : String :=
  "Улица " ++ sq ++ street ++ sq ++ " не найдена в поселении " ++ sq ++ settlement ++ sq

/-- Details of a found office (matcher.py:175-176); the source appends the two
sub-scores formatted to two decimals, which is dropped here as no claim
depends on it. -/
def foundDetails (office : Office) : String :=
  "Найден: " ++ office.settlement ++ ", " ++ office.street ++ ", " ++ office.house

/-- The body of the `try` block of `AddressMatcher.match_address`
(matcher.py:60-104): settlement search, best-office scan, classification. -/
def match_address_body (cache : List (String × List Office)) (row : AddressRow) :
    MatchOutcome :=
  let cands := find_matching_settlements cache row.settlement
  if cands.isEmpty then
    ⟨row.row_num, "Нет", settlementNotFoundDetails row.settlement⟩
  else
    match bestOffice row.street row.house cands with
    | some (office, total) => ⟨row.row_num, determine_status total, foundDetails office⟩
    | none => ⟨row.row_num, "Нет", streetNotFoundDetails row.street row.settlement⟩

/-- The `try/except` wrapper of `match_address` (matcher.py:60-112): a raised
fault (modelled as the `Except.error` branch) is converted into a
`'Проверить'` result carrying the fault message, so every row produces
exactly one result. -/
def match_address_guarded (body : Except String MatchOutcome) (row_num : Nat) :
    MatchOutcome :=
  match body with
  | Except.ok r => r
  | Except.error e => ⟨row_num, "Проверить", "Ошибка при проверке: " ++ e⟩

/-- `AddressMatcher.match_address` (matcher.py:43-112); the embedded body is
pure, so it always reaches the wrapper as an `ok` value. -/
def match_address (cache : List (String × List Office)) (row : AddressRow) :
    MatchOutcome :=
  match_address_guarded (Except.ok (match_address_body cache row)) row.row_num

/- ### Address parser (`HTMLParser._parse_address_string` and the cleaning
helpers, html_parser.py:112-190)

The three source regexes use a small construct set: literals, the ordered
alternation `(?:ул\.|пр\.|мкр\.)`, the optional groups `(?:г\.\s*)?` and
`(?:д\.\s*)?` (a literal followed by `\s*`), `\s*`, and one-or-more
repetitions of the classes `[^,]`, `.` and `\s`.  The engine below implements
exactly those constructs with Python's leftmost search, ordered alternation
and greedy backtracking semantics (all patterns run with `re.IGNORECASE`). -/

/-- The character classes appearing in the source patterns. -/
inductive CKind where
  | nonComma
  | anyCh
  | wsCh
deriving DecidableEq

/-- Interpretation of a character class: `[^,]`, `.` (anything but a
newline), `\s`. -/
def clsPred : CKind → Char → Bool
  | CKind.nonComma, c => c ≠ ','
  | CKind.anyCh, c => c ≠ '\n'
  | CKind.wsCh, c => isWsC c

/-- One element of a source pattern. -/
inductive RElem where
  | lit (w : List Char)
  | alts (ws : List (List Char))
  | optLitWs (w : List Char)
  | ws0
  | cls1 (k : CKind) (grp : Bool)

/-- Try `f` on `n, n-1, ..., 0` and return the first success: the greedy
(longest-first) backtracking order of `\s*` and of an optional group. -/
def firstSome {α : Type} (f : Nat → Option α) : Nat → Option α
  | 0 => f 0
  | n + 1 =>
    match f (n + 1) with
    | some r => some r
    | none => firstSome f n

/-- Try `f` on `n, n-1, ..., 1`: the greedy backtracking order of a
one-or-more repetition. -/
def firstSome1 {α : Type} (f : Nat → Option α) : Nat → Option α
  | 0 => none
  | n + 1 =>
    match f (n + 1) with
    | some r => some r
    | none => firstSome1 f n

/-- Length of the run of characters satisfying `p` at the head of the list. -/
def countLeading (p : Char → Bool) : List Char → Nat
  | [] => 0
  | c :: rest => if p c then countLeading p rest + 1 else 0

/-- Match a pattern element list at the head of `s`, appending captured
groups left to right; backtracking is depth-first with greedy preference,
as in Python's regex engine. -/
def matchSeq : List RElem → List Char → List (List Char) → Option (List (List Char))
  | [], _, caps => some caps
  | RElem.lit w :: rest, s, caps =>
    if ciStarts w s then matchSeq rest (s.drop w.length) caps else none
  | RElem.alts ws :: rest, s, caps =>
    ws.foldr
      (fun w acc =>
        (if ciStarts w s then matchSeq rest (s.drop w.length) caps else none).orElse
          (fun _ => acc))
      none
  | RElem.optLitWs w :: rest, s, caps =>
    (if ciStarts w s then
      firstSome (fun k => matchSeq rest ((s.drop w.length).drop k) caps)
        (countLeading isWsC (s.drop w.length))
     else none).orElse
      (fun _ => matchSeq rest s caps)
  | RElem.ws0 :: rest, s, caps =>
    firstSome (fun k => matchSeq rest (s.drop k) caps) (countLeading isWsC s)
  | RElem.cls1 k grp :: rest, s, caps =>
    firstSome1
      (fun n => matchSeq rest (s.drop n) (if grp then caps ++ [s.take n] else caps))
      (countLeading (clsPred k) s)

/-- `re.search`: try a match at every position, leftmost first. -/
def pySearch (pat : List RElem) : List Char → Option (List (List Char))
  | [] => matchSeq pat [] []
  | c :: rest =>
    match matchSeq pat (c :: rest) [] with
    | some caps => some caps
    | none => pySearch pat rest

/-- The street-type alternation `(?:ул\.|пр\.|мкр\.)` shared by all three
patterns (html_parser.py:129-133). -/
def streetMarkers : List (List Char) :=
  ["ул.".data, "пр.".data, "мкр.".data]

/-- `r'(?:г\.\s*)?([^,]+),\s*(?:ул\.|пр\.|мкр\.)\s*([^,]+),\s*(?:д\.\s*)?(.+)'`
(html_parser.py:129). -/
def pattern1 : List RElem :=
  [RElem.optLitWs "г.".data, RElem.cls1 CKind.nonComma true, RElem.lit ",".data,
   RElem.ws0, RElem.alts streetMarkers, RElem.ws0, RElem.cls1 CKind.nonComma true,
   RElem.lit ",".data, RElem.ws0, RElem.optLitWs "д.".data, RElem.cls1 CKind.anyCh true]

/-- `r'([^,]+),\s*(?:ул\.|пр\.|мкр\.)\s*([^,]+),\s*(.+)'` (html_parser.py:131). -/
def pattern2 : List RElem :=
  [RElem.cls1 CKind.nonComma true, RElem.lit ",".data, RElem.ws0,
   RElem.alts streetMarkers, RElem.ws0, RElem.cls1 CKind.nonComma true,
   RElem.lit ",".data, RElem.ws0, RElem.cls1 CKind.anyCh true]

/-- `r'(?:г\.\s*)?([^,]+)\s+(?:ул\.|пр\.|мкр\.)\s*([^,]+)\s+(?:д\.\s*)?(.+)'`
(html_parser.py:133). -/
def pattern3 : List RElem :=
  [RElem.optLitWs "г.".data, RElem.cls1 CKind.nonComma true,
   RElem.cls1 CKind.wsCh false, RElem.alts streetMarkers, RElem.ws0,
   RElem.cls1 CKind.nonComma true, RElem.cls1 CKind.wsCh false,
   RElem.optLitWs "д.".data, RElem.cls1 CKind.anyCh true]

/-- The ordered pattern list of `_parse_address_string` (html_parser.py:127-134). -/
def addressPatterns : List (List RElem) :=
  [pattern1, pattern2, pattern3]

/-- The settlement-marker vocabulary of `_clean_settlement_name`
(html_parser.py:163). -/
def settlementVocab : List (List Char) :=
  ["г.".data, "город".data, "с.".data, "село".data, "пос.".data, "посёлок".data]

/-- `HTMLParser._clean_settlement_name` (html_parser.py:158-165): strip, drop
a leading settlement marker with the whitespace after it, `none` when nothing
remains. -/
def clean_settlement_name (s : List Char) : Option (List Char) :=
  let s1 := stripLeadVocab settlementVocab (pyStripL s)
  if s1.isEmpty then none else some (pyStripL s1)

/-- `HTMLParser._clean_street_name` (html_parser.py:167-181): keep the string
when it already starts with a street marker, otherwise prepend `пр.`, `мкр.`
or `ул.` according to keywords; the result is never empty. -/
def clean_street_name (s : List Char) : Option (List Char) :=
  let s1 := pyStripL s
  if streetMarkers.any (fun v => ciStarts v s1) then some s1
  else if containsSub "проспект".data (s1.map lowerC) ||
          containsSub "avenue".data (s1.map lowerC) then
    some ("пр. ".data ++ s1)
  else if containsSub "микрорайон".data (s1.map lowerC) ||
          containsSub "мкр".data (s1.map lowerC) then
    some ("мкр. ".data ++ s1)
  else
    some ("ул. ".data ++ s1)

/-- `HTMLParser._clean_house_number` (html_parser.py:183-190): strip, drop a
leading `д.`/`дом` marker with the whitespace after it, `none` when nothing
remains. -/
def clean_house_number (s : List Char) : Option (List Char) :=
  let s1 := stripLeadVocab ["д.".data, "дом".data] (pyStripL s)
  if s1.isEmpty then none else some (pyStripL s1)

/-- A parsing result (html_parser.py:149-153). -/
structure ParsedAddress where
  settlement : String
  street : String
  house : String
deriving DecidableEq

/-- The body of the pattern loop of `_parse_address_string`
(html_parser.py:136-153): search the pattern, strip and clean the three
captured groups, succeed only when all cleaned fields are non-empty. -/
def try_pattern (clean : List Char) (pat : List RElem) : Option ParsedAddress :=
  match pySearch pat clean with
  | none => none
  | some caps =>
    match caps with
    | [g1, g2, g3] =>
      match clean_settlement_name (pyStripL g1), clean_street_name (pyStripL g2),
          clean_house_number (pyStripL g3) with
      | some s, some st, some h => some ⟨⟨s⟩, ⟨st⟩, ⟨h⟩⟩
      | _, _, _ => none
    | _ => none

/-- `' '.join(address_text.split())` (html_parser.py:123). -/
def collapsed (s : String) : List Char :=
  joinWords (splitWs s.data)

/-- The pattern cascade: each pattern is tried in order; a pattern whose
match or cleaning fails falls through to the next one. -/
def parseCascade (clean : List Char) : List (List RElem) → Option ParsedAddress
  | [] => none
  | p :: ps =>
    match try_pattern clean p with
    | some r => some r
    | none => parseCascade clean ps

/-- `HTMLParser._parse_address_string` (html_parser.py:112-156). -/
def parse_address_string (address_text : String) : Option ParsedAddress :=
  parseCascade (collapsed address_text) addressPatterns

/- ### Concrete fixtures used by witness corollaries -/

/-- A concrete office record, as the scraper would produce for scenario A of
the spec. -/
def witnessOffice : Office :=
  ⟨"г. Алматы, ул. Абая, д. 150", "алматы", "ул. абая", "150"⟩

/-- A concrete prepared search cache with one settlement bucket. -/
def witnessCache : List (String × List Office) :=
  [("алматы", [witnessOffice])]

/-- A concrete scraped database with two spellings of the same settlement. -/
def witnessData : List (String × List Office) :=
  [("г. Алматы", [witnessOffice]), ("Алматы", [witnessOffice])]

/- ### Claim theorems -/

/- #### Helper lemmas about the reference index and the best-match scan -/

/-- Looking a key up after `cacheInsert` returns the inserted offices appended
to whatever the key previously held. -/
theorem lookupOffices_cacheInsert (c : List (String × List Office)) (k' : String)
    (offs : List Office) (k : String) :
    lookupOffices (cacheInsert c k' offs) k =
      if k = k' then lookupOffices c k ++ offs else lookupOffices c k := by
  induction c with
  | nil =>
    by_cases h : k = k'
    · subst h; simp [cacheInsert, lookupOffices]
    · have h2 : k' ≠ k := Ne.symm h
      simp [cacheInsert, lookupOffices, h, h2]
  | cons e rest ih =>
    by_cases he : e.1 = k'
    · rw [cacheInsert, if_pos he]
      by_cases hk : e.1 = k
      · have hkk : k = k' := hk ▸ he
        simp [lookupOffices, hk, hkk]
      · by_cases hkk : k = k'
        · exact absurd (he.trans hkk.symm) hk
        · simp [lookupOffices, hk, hkk]
    · rw [cacheInsert, if_neg he]
      by_cases hk : e.1 = k
      · have hkk : k ≠ k' := fun h => he (hk.trans h)
        simp [lookupOffices, hk, hkk]
      · simp [lookupOffices, hk, ih]

/-- Folding the scraped data into the cache accumulates, for every key, the
concatenation of the office lists whose settlement normalizes to that key. -/
theorem lookupOffices_prepare_aux (data : List (String × List Office))
    (init : List (String × List Office)) (k : String) :
    lookupOffices (data.foldl (fun cache p => cacheInsert cache (normalize p.1) p.2) init) k =
      lookupOffices init k ++
        (data.filter (fun p => normalize p.1 = k)).flatMap Prod.snd := by
  induction data generalizing init with
  | nil => simp
  | cons p rest ih =>
    rw [List.foldl_cons, ih, lookupOffices_cacheInsert]
    by_cases h : k = normalize p.1
    · rw [if_pos h, List.filter_cons, if_pos (by simp [h.symm])]
      simp [List.flatMap_cons]
    · have h2 : normalize p.1 ≠ k := Ne.symm h
      rw [if_neg h, List.filter_cons, if_neg (by simpa using h2)]

/-- Membership in `insertDesc`. -/
theorem mem_insertDesc {c y : SettlementCandidate} {l : List SettlementCandidate} :
    y ∈ insertDesc c l ↔ y = c ∨ y ∈ l := by
  induction l with
  | nil => simp [insertDesc]
  | cons d rest ih =>
    rw [insertDesc]
    by_cases h : d.score ≤ c.score
    · simp [h, List.mem_cons]
    · simp only [h, if_false, List.mem_cons, ih]
      tauto

/-- Membership in the stable sort. -/
theorem mem_sortByScoreDesc {y : SettlementCandidate} {l : List SettlementCandidate} :
    y ∈ sortByScoreDesc l ↔ y ∈ l := by
  induction l with
  | nil => simp [sortByScoreDesc]
  | cons c rest ih => simp [sortByScoreDesc, mem_insertDesc, ih]

/-- `insertDesc` preserves the non-increasing-score invariant. -/
theorem pairwise_insertDesc {c : SettlementCandidate} {l : List SettlementCandidate}
    (h : List.Pairwise (fun a b => b.score ≤ a.score) l) :
    List.Pairwise (fun a b => b.score ≤ a.score) (insertDesc c l) := by
  induction l with
  | nil => simp [insertDesc]
  | cons d rest ih =>
    rcases List.pairwise_cons.mp h with ⟨hd, hrest⟩
    rw [insertDesc]
    by_cases hc : d.score ≤ c.score
    · rw [if_pos hc]
      refine List.pairwise_cons.mpr ⟨?_, h⟩
      intro y hy
      rcases List.mem_cons.mp hy with rfl | hy2
      · exact hc
      · exact le_trans (hd y hy2) hc
    · rw [if_neg hc]
      refine List.pairwise_cons.mpr ⟨?_, ih hrest⟩
      intro y hy
      rcases mem_insertDesc.mp hy with rfl | hy2
      · exact le_of_lt (not_le.mp hc)
      · exact hd y hy2

/-- The stable sort produces a non-increasing score sequence. -/
theorem pairwise_sortByScoreDesc (l : List SettlementCandidate) :
    List.Pairwise (fun a b => b.score ≤ a.score) (sortByScoreDesc l) := by
  induction l with
  | nil => simp [sortByScoreDesc]
  | cons c rest ih => exact pairwise_insertDesc ih

/-- Restricting to one score value, `insertDesc` prepends the new element
exactly when it carries that value: elements skipped over all have strictly
larger scores. -/
theorem filter_insertDesc (c : SettlementCandidate) (l : List SettlementCandidate)
    (v : ℚ) :
    (insertDesc c l).filter (fun d => decide (d.score = v)) =
      if c.score = v then c :: l.filter (fun d => decide (d.score = v))
      else l.filter (fun d => decide (d.score = v)) := by
  induction l with
  | nil =>
    by_cases hv : c.score = v <;> simp [insertDesc, List.filter, hv]
  | cons d rest ih =>
    rw [insertDesc]
    by_cases hc : d.score ≤ c.score
    · rw [if_pos hc]
      by_cases hv : c.score = v <;> simp [List.filter_cons, hv]
    · rw [if_neg hc]
      by_cases hv : c.score = v
      · have hd : ¬ d.score = v := fun hh => hc (le_of_eq (hh.trans hv.symm))
        simp [List.filter_cons, hd, ih, hv]
      · by_cases hd : d.score = v <;> simp [List.filter_cons, hd, ih, hv]

/-- Stability of the sort: the subsequence at any fixed score value is
unchanged. -/
theorem filter_sortByScoreDesc (l : List SettlementCandidate) (v : ℚ) :
    (sortByScoreDesc l).filter (fun d => decide (d.score = v)) =
      l.filter (fun d => decide (d.score = v)) := by
  induction l with
  | nil => simp [sortByScoreDesc]
  | cons c rest ih =>
    rw [sortByScoreDesc, filter_insertDesc]
    by_cases hv : c.score = v <;> simp [List.filter_cons, hv, ih]

/-- Characterisation of the candidate filter of `_find_matching_settlements`. -/
theorem mem_candidateList {cache : List (String × List Office)} {q : String}
    {c : SettlementCandidate} :
    c ∈ candidateList cache q ↔
      ∃ p ∈ cache, SETTLEMENT_MATCH_THRESHOLD ≤ similarity (normalize q) p.1 ∧
        c = ⟨p.1, p.2, similarity (normalize q) p.1⟩ := by
  rw [candidateList, List.mem_filterMap]
  constructor
  · rintro ⟨p, hp, hf⟩
    by_cases hth : SETTLEMENT_MATCH_THRESHOLD ≤ similarity (normalize q) p.1
    · rw [if_pos hth] at hf
      exact ⟨p, hp, hth, (Option.some.inj hf).symm⟩
    · rw [if_neg hth] at hf
      cases hf
  · rintro ⟨p, hp, hth, rfl⟩
    exact ⟨p, hp, by rw [if_pos hth]⟩

/-- The similarity ratio is non-negative. -/
theorem similarity_nonneg (a b : String) : 0 ≤ similarity a b := by
  rw [similarity]
  split
  · exact le_refl 0
  · split
    · exact zero_le_one
    · rw [smRatio]
      split
      · exact zero_le_one
      · positivity

/-- The house similarity is non-negative. -/
theorem house_similarity_nonneg (a b : String) : 0 ≤ house_similarity a b := by
  rw [house_similarity]
  split
  · exact le_refl 0
  · split
    · exact zero_le_one
    · split
      · norm_num
      · exact similarity_nonneg a b

/-- Once the best-match accumulator holds an office it keeps holding one. -/
theorem foldl_bestStep_isSome (street house : String) (score : ℚ)
    (offs : List Office) (acc : Option (Office × ℚ) × ℚ) (h : acc.1.isSome) :
    (offs.foldl (bestStep street house score) acc).1.isSome := by
  induction offs generalizing acc with
  | nil => exact h
  | cons o rest ih =>
    rw [List.foldl_cons]
    apply ih
    rw [bestStep]
    split
    · rfl
    · exact h

/-- If the inner scan ends without an office, it started without one, its best
score never moved, and every office scored at most the incoming best score. -/
theorem foldl_bestStep_none (street house : String) (score : ℚ)
    (offs : List Office) (acc : Option (Office × ℚ) × ℚ)
    (h : (offs.foldl (bestStep street house score) acc).1 = none) :
    acc.1 = none ∧ (offs.foldl (bestStep street house score) acc).2 = acc.2 ∧
      ∀ o ∈ offs, match_street_and_house street house o score ≤ acc.2 := by
  induction offs generalizing acc with
  | nil => exact ⟨h, rfl, by simp⟩
  | cons o rest ih =>
    rw [List.foldl_cons] at h ⊢
    by_cases hlt : acc.2 < match_street_and_house street house o score
    · exfalso
      have : (bestStep street house score acc o).1.isSome := by
        rw [bestStep, if_pos hlt]
        rfl
      have := foldl_bestStep_isSome street house score rest _ this
      rw [h] at this
      cases this
    · have hstep : bestStep street house score acc o = acc := by
        rw [bestStep, if_neg hlt]
      rw [hstep] at h ⊢
      rcases ih acc h with ⟨h1, h2, h3⟩
      refine ⟨h1, h2, ?_⟩
      intro o' ho'
      rcases List.mem_cons.mp ho' with rfl | ho2
      · exact not_lt.mp hlt
      · exact h3 o' ho2

/-- If the whole best-match scan ends without an office, every office of every
candidate scored at most the initial best score. -/
theorem bestOffice_none_forall (street house : String)
    (cands : List SettlementCandidate) (acc : Option (Office × ℚ) × ℚ)
    (h : (cands.foldl (fun a c => c.offices.foldl (bestStep street house c.score) a) acc).1 = none) :
    acc.1 = none ∧
      (cands.foldl (fun a c => c.offices.foldl (bestStep street house c.score) a) acc).2 = acc.2 ∧
      ∀ c ∈ cands, ∀ o ∈ c.offices,
        match_street_and_house street house o c.score ≤ acc.2 := by
  induction cands generalizing acc with
  | nil => exact ⟨h, rfl, by simp⟩
  | cons c rest ih =>
    rw [List.foldl_cons] at h ⊢
    rcases ih _ h with ⟨h1, h2, h3⟩
    rcases foldl_bestStep_none street house c.score c.offices acc h1 with ⟨g1, g2, g3⟩
    refine ⟨g1, by rw [h2, g2], ?_⟩
    intro c' hc' o ho
    rcases List.mem_cons.mp hc' with rfl | hc2
    · exact g3 o ho
    · exact le_trans (h3 c' hc2 o ho) (le_of_eq g2)

/-- If every candidate has an empty office list the scan is a no-op. -/
theorem bestOffice_all_nil (street house : String)
    (cands : List SettlementCandidate)
    (h : ∀ c ∈ cands, c.offices = []) :
    bestOffice street house cands = none := by
  rw [bestOffice]
  suffices hs : ∀ acc : Option (Office × ℚ) × ℚ,
      (cands.foldl (fun a c => c.offices.foldl (bestStep street house c.score) a) acc) = acc by
    rw [hs]
  intro acc
  induction cands generalizing acc with
  | nil => rfl
  | cons c rest ih =>
    rw [List.foldl_cons, h c (List.mem_cons_self c rest), List.foldl_nil]
    exact ih (fun c' hc' => h c' (List.mem_cons_of_mem c hc')) acc

/-- C1: for a row with a best-matching office the status is a pure function of
the winning composite score: at least 0.9 gives `Да` (Confirmed, in particular
exactly 0.9), between `PARTIAL_MATCH_THRESHOLD` = 0.4 inclusive and 0.9
exclusive gives `Проверить` (NeedsReview), below 0.4 gives `Нет` (NotFound);
and `match_address` applies exactly this function to the best score. -/
theorem c1_status_thresholds : ∀ q : ℚ,
    ((9 : ℚ) / 10 ≤ q → determine_status q = "Да") ∧
    (PARTIAL_MATCH_THRESHOLD ≤ q → q < 9 / 10 → determine_status q = "Проверить") ∧
    (q < PARTIAL_MATCH_THRESHOLD → determine_status q = "Нет") ∧
    determine_status (9 / 10) = "Да" ∧
    (∀ cache row office total,
      bestOffice row.street row.house (find_matching_settlements cache row.settlement) =
          some (office, total) →
        (match_address cache row).status = determine_status total) := by
  intro q
  refine ⟨?_, ?_, ?_, ?_, ?_⟩
  · intro h
    simp [determine_status, h]
  · intro h1 h2
    rw [determine_status, if_neg (by exact not_le.mpr h2), if_pos h1]
  · intro h
    have h2 : ¬ (9 : ℚ) / 10 ≤ q := by
      simp only [PARTIAL_MATCH_THRESHOLD] at h
      intro hc
      nlinarith
    rw [determine_status, if_neg h2, if_neg (not_le.mpr h)]
  · norm_num [determine_status]
  · intro cache row office total h
    have hne : (find_matching_settlements cache row.settlement).isEmpty = false := by
      cases hc : find_matching_settlements cache row.settlement with
      | nil => rw [hc] at h; simp [bestOffice] at h
      | cons a l => simp
    simp only [match_address, match_address_guarded, match_address_body, hne,
      Bool.false_eq_true, if_false, h]

/-- C1 witness: a concrete score in the review band classifies `Проверить`. -/
theorem c1_status_thresholds_witness : determine_status (1 / 2) = "Проверить" :=
  (c1_status_thresholds (1 / 2)).2.1 (by norm_num [PARTIAL_MATCH_THRESHOLD]) (by norm_num)

/-- C2: the composite score is the weighted sum with settlement weight 0.3 and
the configured street/house weights (defaults 0.7 and 0.3); it is monotone in
the street and house similarities, reaches 1.3 at all-ones, and is exactly
what `_match_street_and_house` computes. -/
theorem c2_composite_weights : ∀ s st h st2 h2 : ℚ,
    compositeScore s st h = s * (3 / 10) + st * (7 / 10) + h * (3 / 10) ∧
    (st ≤ st2 → compositeScore s st h ≤ compositeScore s st2 h) ∧
    (h ≤ h2 → compositeScore s st h ≤ compositeScore s st h2) ∧
    compositeScore 1 1 1 = 13 / 10 ∧
    (∀ street house office sscore,
      match_street_and_house street house office sscore =
        compositeScore sscore (similarity (normalize street) (normalize office.street))
          (house_similarity house office.house)) := by
  intro s st h st2 h2
  refine ⟨by norm_num [compositeScore, STREET_WEIGHT, HOUSE_WEIGHT], ?_, ?_, ?_, ?_⟩
  · intro hle
    simp only [compositeScore, STREET_WEIGHT, HOUSE_WEIGHT]
    nlinarith
  · intro hle
    simp only [compositeScore, STREET_WEIGHT, HOUSE_WEIGHT]
    nlinarith
  · norm_num [compositeScore, STREET_WEIGHT, HOUSE_WEIGHT]
  · intro street house office sscore
    rfl

/-- C2 witness: monotonicity applied at concrete similarities. -/
theorem c2_composite_weights_witness :
    compositeScore 1 0 0 ≤ compositeScore 1 1 0 :=
  (c2_composite_weights 1 0 0 1 0).2.1 (by norm_num)

/-- C7: `_normalize_text` maps the empty string to the empty string, and
stripping the leading street marker makes `normalize "ул. Абая"` coincide
with `normalize "Абая"` (both are the lower-cased `"абая"`). -/
theorem c7_normalize_markers :
    normalize "" = "" ∧ normalize "ул. Абая" = normalize "Абая" ∧
      normalize "ул. Абая" = "абая" := by
  refine ⟨rfl, ?_, ?_⟩ <;> decide

/-- C3: `_calculate_house_similarity` applies its tiers in order: 0 when a
house string is empty; 1 when the raw strings agree after trimming and
lower-casing; 0.9 when both raw strings contain a first digit run and the
runs agree; otherwise the generic similarity of the raw strings.  In
particular `house_similarity "12" "12A" = 0.9`. -/
theorem c3_house_similarity_tiers : ∀ h1 h2 : String,
    (h1 = "" ∨ h2 = "" → house_similarity h1 h2 = 0) ∧
    (h1 ≠ "" → h2 ≠ "" → stripLower h1 = stripLower h2 →
      house_similarity h1 h2 = 1) ∧
    (h1 ≠ "" → h2 ≠ "" → stripLower h1 ≠ stripLower h2 →
      ∀ n1 n2, extract_house_number h1 = some n1 → extract_house_number h2 = some n2 →
        n1 = n2 → house_similarity h1 h2 = 9 / 10) ∧
    (h1 ≠ "" → h2 ≠ "" → stripLower h1 ≠ stripLower h2 →
      ¬(extract_house_number h1 ≠ none ∧ extract_house_number h2 ≠ none ∧
          extract_house_number h1 = extract_house_number h2) →
      house_similarity h1 h2 = similarity h1 h2) ∧
    house_similarity "12" "12A" = 9 / 10 := by
  intro h1 h2
  refine ⟨?_, ?_, ?_, ?_, by rfl⟩
  · rintro (rfl | rfl) <;> simp [house_similarity, String.isEmpty_iff]
  · intro hne1 hne2 heq
    have e1 : h1.isEmpty = false := by
      simpa using (fun hx => hne1 ((String.isEmpty_iff h1).mp hx))
    have e2 : h2.isEmpty = false := by
      simpa using (fun hx => hne2 ((String.isEmpty_iff h2).mp hx))
    simp [house_similarity, e1, e2, heq]
  · intro hne1 hne2 hsneq n1 n2 hn1 hn2 hnn
    have e1 : h1.isEmpty = false := by
      simpa using (fun hx => hne1 ((String.isEmpty_iff h1).mp hx))
    have e2 : h2.isEmpty = false := by
      simpa using (fun hx => hne2 ((String.isEmpty_iff h2).mp hx))
    subst hnn
    simp [house_similarity, e1, e2, hsneq, hn1, hn2]
  · intro hne1 hne2 hsneq hnum
    have e1 : h1.isEmpty = false := by
      simpa using (fun hx => hne1 ((String.isEmpty_iff h1).mp hx))
    have e2 : h2.isEmpty = false := by
      simpa using (fun hx => hne2 ((String.isEmpty_iff h2).mp hx))
    simp only [house_similarity, e1, e2, Bool.or_self, Bool.false_eq_true, if_false,
      if_neg hsneq, if_neg hnum]

/-- C3 witness: the empty-house tier at a concrete input. -/
theorem c3_house_similarity_tiers_witness : house_similarity "" "5" = 0 :=
  (c3_house_similarity_tiers "" "5").1 (Or.inl rfl)

/-- The matched character total of `SequenceMatcher` on `"abcb"` / `"bcab"`:
the single longest match is `"ab"`, so two characters match. -/
theorem totalMatched_abcb_bcab :
    totalMatched "abcb".data "bcab".data
      ("abcb".data.length + "bcab".data.length + 1) 0 "abcb".data.length 0
      "bcab".data.length = 2 := by
  decide

/-- The matched character total of `SequenceMatcher` on `"bcab"` / `"abcb"`:
the longest match `"bc"` leaves a further `"b"` match to its right, so three
characters match — the recursion is direction-dependent. -/
theorem totalMatched_bcab_abcb :
    totalMatched "bcab".data "abcb".data
      ("bcab".data.length + "abcb".data.length + 1) 0 "bcab".data.length 0
      "abcb".data.length = 3 := by
  decide

/-- C4 counterexample: the claim fails on the code at concrete inputs.
`similarity "" ""` is 0, not 1 (the empty-string guard precedes the equality
test), and the `SequenceMatcher` ratio is direction-dependent:
`similarity "abcb" "bcab" = 1/2` while `similarity "bcab" "abcb" = 3/4`. -/
theorem c4_similarity_counterexample :
    similarity "" "" = 0 ∧ similarity "" "" ≠ 1 ∧
    similarity "abcb" "bcab" = 1 / 2 ∧ similarity "bcab" "abcb" = 3 / 4 ∧
    similarity "abcb" "bcab" ≠ similarity "bcab" "abcb" := by
  have e1 : similarity "abcb" "bcab" = 1 / 2 := by
    simp only [similarity, smRatio]
    rw [if_neg (by decide), if_neg (by decide), if_neg (by decide),
      totalMatched_abcb_bcab]
    norm_num
  have e2 : similarity "bcab" "abcb" = 3 / 4 := by
    simp only [similarity, smRatio]
    rw [if_neg (by decide), if_neg (by decide), if_neg (by decide),
      totalMatched_bcab_abcb]
    norm_num
  refine ⟨by rfl, by decide, e1, e2, ?_⟩
  rw [e1, e2]
  norm_num

/-- C4 amended: `similarity s s = 1` for non-empty `s` (two empty strings give
0 instead), `similarity` against an empty string is 0, and symmetry holds
when the strings are equal or one of them is empty — but not in general, as
the counterexample shows. -/
theorem c4_similarity_props_corrected : ∀ a b s : String,
    (s ≠ "" → similarity s s = 1) ∧
    similarity s "" = 0 ∧ similarity "" s = 0 ∧
    ((a = b ∨ a = "" ∨ b = "") → similarity a b = similarity b a) := by
  intro a b s
  refine ⟨?_, ?_, ?_, ?_⟩
  · intro hne
    have e1 : s.isEmpty = false := by
      simpa using (fun hx => hne ((String.isEmpty_iff s).mp hx))
    simp [similarity, e1]
  · simp [similarity, show "".isEmpty = true from rfl]
  · simp [similarity, show "".isEmpty = true from rfl]
  · rintro (rfl | rfl | rfl)
    · rfl
    · simp [similarity, show "".isEmpty = true from rfl]
    · simp [similarity, show "".isEmpty = true from rfl]

/-- C4 amended witness: reflexivity of `similarity` at a concrete non-empty
string. -/
theorem c4_similarity_props_corrected_witness : similarity "абая" "абая" = 1 :=
  (c4_similarity_props_corrected "x" "x" "абая").1 (by decide)

/-- C5: the `try/except` of `match_address` converts any fault raised during a
row's resolution into a unique `Проверить` result whose details embed the
fault message, so a row always yields exactly one result. -/
theorem c5_row_fault_guard : ∀ (body : Except String MatchOutcome) (row_num : Nat),
    (∃! r : MatchOutcome, match_address_guarded body row_num = r) ∧
    (∀ e, body = Except.error e →
      (match_address_guarded body row_num).status = "Проверить" ∧
      (match_address_guarded body row_num).details = "Ошибка при проверке: " ++ e ∧
      ∃ pre post : String,
        (match_address_guarded body row_num).details = pre ++ e ++ post) := by
  intro body row_num
  refine ⟨⟨match_address_guarded body row_num, rfl, fun y hy => hy.symm⟩, ?_⟩
  rintro e rfl
  refine ⟨rfl, rfl, "Ошибка при проверке: ", "", ?_⟩
  simp [match_address_guarded]

/-- C5 witness: a concrete fault is downgraded to `Проверить` with the message
in the details. -/
theorem c5_row_fault_guard_witness :
    (match_address_guarded (Except.error "KeyError") 3).status = "Проверить" ∧
    (match_address_guarded (Except.error "KeyError") 3).details =
      "Ошибка при проверке: " ++ "KeyError" :=
  ⟨((c5_row_fault_guard (Except.error "KeyError") 3).2 "KeyError" rfl).1,
   ((c5_row_fault_guard (Except.error "KeyError") 3).2 "KeyError" rfl).2.1⟩

/-- C10: the leading-marker stripping of `_normalize_text` is substring-based
rather than token-bounded: the single word `Городок` loses its leading
`город` characters, normalizing to `"ок"`. -/
theorem c10_normalize_substring_strip : normalize "Городок" = "ок" := by
  decide

/-- C6: the reference index groups offices by normalized settlement name,
concatenating the office lists of spellings that normalize identically;
settlement lookup returns exactly the buckets whose similarity with the
normalized query reaches `SETTLEMENT_MATCH_THRESHOLD`, sorted by
non-increasing score, and the sort is stable (the subsequence at every fixed
score value keeps cache iteration order). -/
theorem c6_reference_index :
    ∀ (data cache : List (String × List Office)) (q k : String) (v : ℚ),
    lookupOffices (prepare_search_cache data) k =
      (data.filter (fun p => normalize p.1 = k)).flatMap Prod.snd ∧
    (∀ c, c ∈ find_matching_settlements cache q ↔
      ∃ p ∈ cache, SETTLEMENT_MATCH_THRESHOLD ≤ similarity (normalize q) p.1 ∧
        c = ⟨p.1, p.2, similarity (normalize q) p.1⟩) ∧
    List.Pairwise (fun a b => b.score ≤ a.score) (find_matching_settlements cache q) ∧
    (find_matching_settlements cache q).filter (fun c => decide (c.score = v)) =
      (candidateList cache q).filter (fun c => decide (c.score = v)) := by
  intro data cache q k v
  refine ⟨?_, ?_, ?_, ?_⟩
  · have h := lookupOffices_prepare_aux data [] k
    simpa [prepare_search_cache, lookupOffices] using h
  · intro c
    rw [find_matching_settlements, mem_sortByScoreDesc, mem_candidateList]
  · exact pairwise_sortByScoreDesc _
  · exact filter_sortByScoreDesc _ v

/-- C6 witness: the two spellings of the witness database normalize to the
same key and their buckets are concatenated. -/
theorem c6_reference_index_witness :
    lookupOffices (prepare_search_cache witnessData) "алматы" =
      [witnessOffice, witnessOffice] := by
  have h := (c6_reference_index witnessData witnessCache "Алматы" "алматы" 1).1
  rw [h]
  decide

/-- C9: every settlement candidate returned by the lookup reaches the
threshold 0.9, so every office in it has a composite score of at least
0.9*0.3 = 0.27, which beats the initial best score 0; hence the best-match
scan comes back empty exactly when every returned candidate bucket is
office-free — the street-not-found branch is reachable only then. -/
theorem c9_best_match_exists :
    ∀ (cache : List (String × List Office)) (q street house : String),
    (∀ c ∈ find_matching_settlements cache q, ∀ o ∈ c.offices,
      27 / 100 ≤ match_street_and_house street house o c.score) ∧
    (bestOffice street house (find_matching_settlements cache q) = none ↔
      ∀ c ∈ find_matching_settlements cache q, c.offices = []) := by
  intro cache q street house
  have hscore : ∀ c ∈ find_matching_settlements cache q,
      SETTLEMENT_MATCH_THRESHOLD ≤ c.score := by
    intro c hc
    rw [find_matching_settlements, mem_sortByScoreDesc, mem_candidateList] at hc
    rcases hc with ⟨p, hp, hth, rfl⟩
    exact hth
  have hcomp : ∀ c ∈ find_matching_settlements cache q, ∀ o ∈ c.offices,
      27 / 100 ≤ match_street_and_house street house o c.score := by
    intro c hc o ho
    have h1 := hscore c hc
    have h2 := similarity_nonneg (normalize street) (normalize o.street)
    have h3 := house_similarity_nonneg house o.house
    rw [SETTLEMENT_MATCH_THRESHOLD] at h1
    rw [match_street_and_house, compositeScore, STREET_WEIGHT, HOUSE_WEIGHT]
    nlinarith
  refine ⟨hcomp, ?_, ?_⟩
  · intro hnone
    rw [bestOffice] at hnone
    rcases bestOffice_none_forall street house _ _ hnone with ⟨_, _, hall⟩
    intro c hc
    by_contra hne
    obtain ⟨o, ho⟩ := List.exists_mem_of_ne_nil _ hne
    have hle := hall c hc o ho
    have hge := hcomp c hc o ho
    simp only at hle
    linarith
  · exact bestOffice_all_nil street house _

/-- C9 witness: on the concrete witness cache the settlement lookup returns a
candidate with an office, so the best-match scan does find an office. -/
theorem c9_best_match_exists_witness :
    bestOffice "Абая" "150" (find_matching_settlements witnessCache "Алматы") ≠ none := by
  have hfind : find_matching_settlements witnessCache "Алматы" =
      [⟨"алматы", [witnessOffice], 1⟩] := by
    have hsim : similarity (normalize "Алматы") "алматы" = 1 := rfl
    rw [find_matching_settlements, candidateList, witnessCache]
    rw [List.filterMap_cons, List.filterMap_nil]
    rw [hsim, if_pos (by norm_num [SETTLEMENT_MATCH_THRESHOLD])]
    rfl
  intro hnone
  have h := ((c9_best_match_exists witnessCache "Алматы" "Абая" "150").2).mp hnone
  rw [hfind] at h
  have h2 := h ⟨"алматы", [witnessOffice], 1⟩ (List.mem_singleton_self _)
  cases h2

/-- The pattern cascade is the first hit of `try_pattern` over the pattern
list. -/
theorem parseCascade_eq_findSome (clean : List Char) (pats : List (List RElem)) :
    parseCascade clean pats = pats.findSome? (fun p => try_pattern clean p) := by
  induction pats with
  | nil => rfl
  | cons p ps ih =>
    cases h : try_pattern clean p with
    | some r => simp [parseCascade, List.findSome?_cons, h]
    | none => simp [parseCascade, List.findSome?_cons, h, ih]

/-- The cascade fails exactly when every pattern fails. -/
theorem parseCascade_eq_none_iff (clean : List Char) (pats : List (List RElem)) :
    parseCascade clean pats = none ↔ ∀ p ∈ pats, try_pattern clean p = none := by
  induction pats with
  | nil => simp [parseCascade]
  | cons p ps ih =>
    cases h : try_pattern clean p with
    | some r => simp [parseCascade, h]
    | none => simp [parseCascade, h, ih]

/-- C8 counterexample: on `"г. пос., ул. Абая, 5"` the first pattern matches
with settlement capture `"пос."`, whose cleaning yields the empty field —
but instead of returning null the parser falls through to the second pattern
(whose settlement capture `"г. пос."` cleans to `"пос."`) and succeeds.  So
the parser does not use the first pattern that matches, and an empty cleaned
field does not force a null result. -/
theorem c8_parser_counterexample :
    pySearch pattern1 (collapsed "г. пос., ул. Абая, 5") =
      some ["пос.".data, "Абая".data, "5".data] ∧
    clean_settlement_name (pyStripL "пос.".data) = none ∧
    parse_address_string "г. пос., ул. Абая, 5" =
      some ⟨"пос.", "ул. Абая", "5"⟩ := by
  refine ⟨by decide, by decide, by decide⟩

/-- C8 amended: the parser tries its ordered pattern list and returns the
result of the first pattern that both matches and yields non-empty cleaned
fields; it returns null exactly when every pattern either fails to match or
yields an empty cleaned field, and a null makes the caller skip the scraped
record. -/
theorem c8_parser_cascade_corrected : ∀ (input : String),
    parse_address_string input =
      addressPatterns.findSome? (fun p => try_pattern (collapsed input) p) ∧
    (parse_address_string input = none ↔
      ∀ p ∈ addressPatterns, try_pattern (collapsed input) p = none) := by
  intro input
  exact ⟨parseCascade_eq_findSome (collapsed input) addressPatterns,
    parseCascade_eq_none_iff (collapsed input) addressPatterns⟩

/-- C8 amended witness: a text with no address shape makes every pattern
fail, so the parser returns null. -/
theorem c8_parser_cascade_corrected_witness :
    parse_address_string "просто текст" = none := by
  have h := (c8_parser_cascade_corrected "просто текст").2
  exact h.mpr (by decide)

end AddressChecker
